import Mathlib

/-!
Verification development for the Freedcamp MCP server
(`src/freedcamp_mcp.py`).  The Python functions that the claims are about
are shallowly embedded below: Python values become the inductive `PyVal`,
Python dicts become insertion-ordered association lists, fallible code
(KeyError / TypeError / OverflowError / HTTP errors) returns `Except PyErr`.
All definitions are executable; theorems about the claims follow at the end
of the file.
-/

/-- Embedding of the Python values that flow through the formatter layer:
None, bool, int, str, list and dict (insertion-ordered). -/
inductive PyVal where
  | none
  | bool (b : Bool)
  | int (n : Int)
  | str (s : String)
  | list (xs : List PyVal)
  | dict (kvs : List (String × PyVal))

/-- A Python dict with string keys, as an insertion-ordered association
list with unique keys (Python 3.7+ semantics). -/
abbrev PyDict := List (String × PyVal)

/-- Python truthiness (`if x:`): None and False are falsy, 0 is falsy,
an empty string, list or dict is falsy, everything else is truthy. -/
def truthy : PyVal → Bool
  | .none => false
  | .bool b => b
  | .int n => n != 0
  | .str s => s ≠ ""
  | .list xs => !xs.isEmpty
  | .dict kvs => !kvs.isEmpty

/-- Embedding of `d.get(k, default)` on a Python dict. -/
def PyDict.get (d : PyDict) (k : String) (default : PyVal) : PyVal :=
  (List.lookup k d).getD default

/-- Embedding of `d.get(k)` (default None). -/
def PyDict.getN (d : PyDict) (k : String) : PyVal :=
  d.get k .none

/-- Errors that the embedded Python code can raise.  `keyError k` models a
`KeyError` from `d[k]`, `overflowError` models the `OverflowError` /
`OSError` that `datetime.fromtimestamp` raises outside the supported
range, `httpStatus` models `httpx.HTTPStatusError` from
`raise_for_status`, `connection` models an `httpx` transport error. -/
inductive PyErr where
  | keyError (k : String)
  | typeError
  | overflowError
  | httpStatus (code : Nat)
  | connection

/-- Embedding of `d[k]` on a Python dict: the value, or a KeyError. -/
def PyDict.req (d : PyDict) (k : String) : Except PyErr PyVal :=
  match List.lookup k d with
  | some v => .ok v
  | Option.none => .error (.keyError k)

/-- ASCII whitespace as stripped by Python `int(str)`. -/
def isPySpace (c : Char) : Bool :=
  c = ' ' || c = '\t' || c = '\n' || c = '\x0d' || c = '\x0b' || c = '\x0c'

/-- Decimal digit test. -/
def isDigitChar (c : Char) : Bool :=
  '0' ≤ c && c ≤ '9'

/-- After the first digit of an `int()` literal: digits, with single
underscores allowed only between digits. -/
def digitsTail : List Char → Bool
  | [] => true
  | '_' :: rest =>
      match rest with
      | c :: rest2 => isDigitChar c && digitsTail rest2
      | [] => false
  | c :: rest => isDigitChar c && digitsTail rest

/-- A valid unsigned body of a Python `int()` literal: at least one digit,
underscores only between digits. -/
def validIntBody : List Char → Bool
  | [] => false
  | c :: rest => isDigitChar c && digitsTail rest

/-- Numeric value of the digits of an `int()` literal (underscores are
grouping only and are skipped). -/
def digitsValue (cs : List Char) : Nat :=
  (cs.filter isDigitChar).foldl (fun a c => 10 * a + (c.toNat - '0'.toNat)) 0

/-- Embedding of Python `int(s)` on a string: strip whitespace, optional
sign, decimal digits with underscore grouping; `none` models the
`ValueError` on malformed input. -/
def pyIntOfString (s : String) : Option Int :=
  let cs := ((s.toList.dropWhile isPySpace).reverse.dropWhile isPySpace).reverse
  match cs with
  | '+' :: rest => if validIntBody rest then some (digitsValue rest) else Option.none
  | '-' :: rest => if validIntBody rest then some (-(digitsValue rest : Int)) else Option.none
  | rest => if validIntBody rest then some (digitsValue rest) else Option.none

/-- Civil date from a day count relative to 1970-01-01 (proleptic
Gregorian, UTC), the standard days-to-civil algorithm; models the date
part of `datetime.fromtimestamp`. -/
def civilFromDays (z0 : Int) : Int × Nat × Nat :=
  let z := z0 + 719468
  let era := Int.fdiv z 146097
  let doe := (z - era * 146097).toNat
  let yoe := (doe - doe / 1460 + doe / 36524 - doe / 146096) / 365
  let y := (yoe : Int) + era * 400
  let doy := doe - (365 * yoe + yoe / 4 - yoe / 100)
  let mp := (5 * doy + 2) / 153
  let d := doy - (153 * mp + 2) / 5 + 1
  let m := if mp < 10 then mp + 3 else mp - 9
  (if m ≤ 2 then y + 1 else y, m, d)

/-- Zero-pad a number below 100 to two digits, as `strftime` does for
`%m`, `%d`, `%H`, `%M`, `%S`. -/
def pad2 (n : Nat) : String :=
  if n < 10 then "0" ++ toString n else toString n

/-- Date rendering `strftime("%Y-%m-%d")` of an epoch timestamp (UTC
model of the local-time call in the source). -/
def renderDate (t : Int) : String :=
  let (y, m, d) := civilFromDays (Int.fdiv t 86400)
  toString y ++ "-" ++ pad2 m ++ "-" ++ pad2 d

/-- Datetime rendering `strftime("%Y-%m-%d %H:%M:%S")` of an epoch
timestamp (UTC model). -/
def renderDateTime (t : Int) : String :=
  let s := (Int.fmod t 86400).toNat
  renderDate t ++ " " ++ pad2 (s / 3600) ++ ":" ++ pad2 (s / 60 % 60) ++ ":" ++ pad2 (s % 60)

/-- Range inside which `datetime.fromtimestamp` succeeds (year 1 to year
9999); outside it the call raises an un-caught OverflowError / OSError. -/
def fromtimestampOk (t : Int) : Bool :=
  -62135596800 ≤ t && t < 253402300800

/-- Embedding of `datetime.fromtimestamp(t).strftime("%Y-%m-%d")`,
with the out-of-range error made explicit. -/
def fromtimestampDate (t : Int) : Except PyErr String :=
  if fromtimestampOk t then .ok (renderDate t) else .error .overflowError

/-- Embedding of `datetime.fromtimestamp(t).strftime("%Y-%m-%d %H:%M:%S")`. -/
def fromtimestampDateTime (t : Int) : Except PyErr String :=
  if fromtimestampOk t then .ok (renderDateTime t) else .error .overflowError

/-- The numeric timestamp obtained by `int(ts) if isinstance(ts, str)
else ts` inside the formatters: strings are parsed with `int()`
(ValueError on failure), ints pass through, bools coerce as in Python;
any other type makes `fromtimestamp` raise a TypeError, which the source
catches.  `none` covers both caught cases (ValueError and TypeError). -/
def pyTimestampOf : PyVal → Option Int
  | .str s => pyIntOfString s
  | .int n => some n
  | .bool b => some (if b then 1 else 0)
  | _ => Option.none

/-- Embedding of `FreedcampMCP._format_date` (src/freedcamp_mcp.py,
lines 146-154): falsy input gives the empty string; a string is parsed
with `int()`; ValueError and TypeError are caught and give the empty
string; the rendered date is returned otherwise.  The OverflowError from
`fromtimestamp` on out-of-range values is not caught by the source and
propagates here as `.error`. -/
def _format_date (ts : PyVal) : Except PyErr String :=
  if truthy ts then
    match pyTimestampOf ts with
    | some t => fromtimestampDate t
    | Option.none => .ok ""
  else .ok ""

/-- Embedding of `FreedcampMCP._format_timestamp` (lines 136-144), the
datetime variant of `_format_date`. -/
def _format_timestamp (ts : PyVal) : Except PyErr String :=
  if truthy ts then
    match pyTimestampOf ts with
    | some t => fromtimestampDateTime t
    | Option.none => .ok ""
  else .ok ""

/-- Python `len()` on the values it accepts; TypeError otherwise. -/
def pyLen : PyVal → Except PyErr Nat
  | .list xs => .ok xs.length
  | .str s => .ok s.length
  | .dict kvs => .ok kvs.length
  | _ => .error .typeError

/-- Embedding of `FreedcampMCP._format_task_summary` (lines 158-171): the
minimal projection of a raw task record.  `task["id"]` and
`task["title"]` are required (KeyError when absent); every other field is
a `get` with the documented default; the due date falls back to the
string "No due date" through the `or`. -/
def _format_task_summary (task : PyDict) : Except PyErr PyDict := do
  let idv ← task.req "id"
  let titlev ← task.req "title"
  let dd ← _format_date (task.get "due_ts" (.int 0))
  pure [("id", idv),
        ("title", titlev),
        ("status", task.get "status_title" (.str "Not Started")),
        ("priority", task.get "priority_title" (.str "None")),
        ("assigned_to", task.get "assigned_to_fullname" (.str "Unassigned")),
        ("due_date", .str (if dd = "" then "No due date" else dd)),
        ("project_id", task.getN "project_id"),
        ("url", task.get "url" (.str "")),
        ("comments", task.get "comments_count" (.int 0)),
        ("can_edit", task.get "can_edit" (.bool false))]

/-- Embedding of `FreedcampMCP._format_comment` (lines 587-602). -/
def _format_comment (comment : PyDict) : Except PyErr PyDict := do
  let idv ← comment.req "id"
  let descv ← comment.req "description"
  let createdByv ← comment.req "created_by_id"
  let ca ← _format_timestamp (comment.get "created_ts" (.int 0))
  pure [("id", idv),
        ("description", descv),
        ("description_processed", comment.get "description_processed" (.str "")),
        ("created_by_id", createdByv),
        ("created_at", .str ca),
        ("user_full_name", comment.get "user_full_name" (.str "")),
        ("likes_count", comment.get "likes_count" (.int 0)),
        ("liked", comment.get "f_liked" (.bool false)),
        ("unread", comment.get "f_unread" (.bool false)),
        ("can_edit", comment.get "can_edit" (.bool false)),
        ("files", comment.get "files" (.list [])),
        ("url", comment.get "url" (.str ""))]

/-- The list comprehension `[self._format_comment(c) for c in
task["comments"]]`: each element must be a dict, otherwise subscripting
inside `_format_comment` raises a TypeError. -/
def formatCommentsVal : PyVal → Except PyErr (List PyVal)
  | .list xs => xs.mapM fun v =>
      match v with
      | .dict d => do pure (PyVal.dict (← _format_comment d))
      | _ => .error .typeError
  | _ => .error .typeError

/-- Embedding of `FreedcampMCP._format_task` (lines 532-585): the
detailed projection.  `task["id"]` and `task["title"]` are required; the
base dict is built in source order, then custom fields (only when
requested and present), tags, formatted comments and files are appended
under their own keys, exactly when the raw record carries them. -/
def _format_task (task : PyDict) (include_custom_fields : Bool) : Except PyErr PyDict := do
  let idv ← task.req "id"
  let titlev ← task.req "title"
  let createdAt ← _format_timestamp (task.get "created_ts" (.int 0))
  let dueDate ← _format_date (task.get "due_ts" (.int 0))
  let startDate ← _format_date (task.get "start_ts" (.int 0))
  let completedAt ←
    if truthy (task.getN "completed_ts") then do
      let s ← _format_timestamp (task.get "completed_ts" (.int 0))
      pure (PyVal.str s)
    else pure PyVal.none
  let base : PyDict :=
    [("id", idv),
     ("title", titlev),
     ("description", task.get "description" (.str "")),
     ("status", task.getN "status"),
     ("status_title", task.get "status_title" (.str "")),
     ("priority", task.get "priority" (.int 0)),
     ("priority_title", task.get "priority_title" (.str "")),
     ("assigned_to_id", task.getN "assigned_to_id"),
     ("assigned_to_fullname", task.get "assigned_to_fullname" (.str "")),
     ("created_by_id", task.getN "created_by_id"),
     ("project_id", task.getN "project_id"),
     ("task_group_id", task.getN "task_group_id"),
     ("task_group_name", task.getN "task_group_name"),
     ("created_at", .str createdAt),
     ("due_date", .str dueDate),
     ("start_date", .str startDate),
     ("completed_at", completedAt),
     ("comments_count", task.get "comments_count" (.int 0)),
     ("files_count", task.get "files_count" (.int 0)),
     ("url", task.get "url" (.str "")),
     ("order", task.get "order" (.int 0)),
     ("recurring_rule", task.get "r_rule" (.str "")),
     ("archived_list", task.get "f_archived_list" (.bool false)),
     ("hierarchy_level", task.get "h_level" (.int 0)),
     ("parent_id", task.get "h_parent_id" (.str "")),
     ("top_parent_id", task.get "h_top_id" (.str "")),
     ("advanced_subtask", task.get "f_adv_subtask" (.bool false)),
     ("can_delete", task.get "can_delete" (.bool false)),
     ("can_edit", task.get "can_edit" (.bool false)),
     ("can_assign", task.get "can_assign" (.bool false)),
     ("can_progress", task.get "can_progress" (.bool false)),
     ("can_comment", task.get "can_comment" (.bool false))]
  let withCf :=
    if include_custom_fields && truthy (task.getN "custom_fields") then
      base ++ [("custom_fields", task.getN "custom_fields"),
               ("cf_tpl_id", task.getN "cf_tpl_id")]
    else base
  let withTags :=
    if truthy (task.getN "tags") then withCf ++ [("tags", task.getN "tags")]
    else withCf
  let withComments ←
    if truthy (task.getN "comments") then do
      let cs ← formatCommentsVal (task.getN "comments")
      pure (withTags ++ [("comments", PyVal.list cs)])
    else pure withTags
  pure (if truthy (task.getN "files") then
          withComments ++ [("files", task.getN "files")]
        else withComments)

/-- Embedding of the per-record projection inside
`FreedcampMCP.get_all_projects` (lines 348-363): `project["id"]` and
`project["project_name"]` are required, `group_name` defaults to
"Ungrouped", and the remaining fields are `get`s with defaults. -/
def simplified_project (project : PyDict) : Except PyErr PyDict := do
  let group_name := project.get "group_name" (.str "Ungrouped")
  let idv ← project.req "id"
  let namev ← project.req "project_name"
  let ca ← _format_timestamp (project.get "created_ts" (.int 0))
  let usersLen ← pyLen (project.get "users" (.list []))
  pure [("id", idv),
        ("name", namev),
        ("description", project.get "project_description" (.str "")),
        ("color", project.get "project_color" (.str "")),
        ("group_name", group_name),
        ("group_id", project.get "group_id" (.str "")),
        ("active", project.get "f_active" (.bool true)),
        ("created_at", .str ca),
        ("url", project.get "url" (.str "")),
        ("users_count", .int usersLen),
        ("tasks_count", project.get "tasks_count" (.int 0))]

/-- Truncation to a 32-bit word. -/
def u32 (x : Nat) : Nat := x % 4294967296

/-- 32-bit left rotation. -/
def rotl (n x : Nat) : Nat := u32 ((x <<< n) ||| (x >>> (32 - n)))

/-- SHA-1 padding: append 0x80, zeros to 56 mod 64, then the bit length
as eight big-endian bytes. -/
def sha1Padded (msg : List Nat) : List Nat :=
  let l := msg.length
  msg ++ [128] ++ List.replicate ((119 - l % 64) % 64) 0
      ++ (List.range 8).map (fun i => 8 * l / 2 ^ (8 * (7 - i)) % 256)

/-- The sixteen big-endian 32-bit words of one 64-byte block. -/
def blockWords (block : List Nat) : List Nat :=
  (List.range 16).map fun i =>
    block.getD (4 * i) 0 * 16777216 + block.getD (4 * i + 1) 0 * 65536 +
    block.getD (4 * i + 2) 0 * 256 + block.getD (4 * i + 3) 0

/-- SHA-1 message-schedule extension from 16 to 80 words. -/
def extendWords (ws : List Nat) : List Nat :=
  (List.range 64).foldl
    (fun w j =>
      w ++ [rotl 1 (w.getD (j + 13) 0 ^^^ w.getD (j + 8) 0 ^^^
                    w.getD (j + 2) 0 ^^^ w.getD j 0)])
    ws

/-- One SHA-1 compression round. -/
def sha1Round (st : Nat × Nat × Nat × Nat × Nat) (ws : List Nat) (i : Nat) :
    Nat × Nat × Nat × Nat × Nat :=
  let (a, b, c, d, e) := st
  let f :=
    if i < 20 then (b &&& c) ||| ((4294967295 ^^^ b) &&& d)
    else if i < 40 then b ^^^ c ^^^ d
    else if i < 60 then (b &&& c) ||| (b &&& d) ||| (c &&& d)
    else b ^^^ c ^^^ d
  let k :=
    if i < 20 then 1518500249
    else if i < 40 then 1859775393
    else if i < 60 then 2400959708
    else 3395469782
  (u32 (rotl 5 a + f + e + k + ws.getD i 0), a, rotl 30 b, c, d)

/-- SHA-1 compression of one block into the running state. -/
def processBlock (h : Nat × Nat × Nat × Nat × Nat) (block : List Nat) :
    Nat × Nat × Nat × Nat × Nat :=
  let ws := extendWords (blockWords block)
  let (a, b, c, d, e) := (List.range 80).foldl (fun st i => sha1Round st ws i) h
  let (h0, h1, h2, h3, h4) := h
  (u32 (h0 + a), u32 (h1 + b), u32 (h2 + c), u32 (h3 + d), u32 (h4 + e))

/-- SHA-1 state after processing a whole byte message. -/
def sha1Core (msg : List Nat) : Nat × Nat × Nat × Nat × Nat :=
  let p := sha1Padded msg
  ((List.range (p.length / 64)).map (fun i => (p.drop (64 * i)).take 64)).foldl
    processBlock (1732584193, 4023233417, 2562383102, 271733878, 3285377520)

/-- Big-endian bytes of a 32-bit word. -/
def wordBytes (w : Nat) : List Nat :=
  [w / 16777216 % 256, w / 65536 % 256, w / 256 % 256, w % 256]

/-- SHA-1 digest (20 bytes) of a byte message; models `hashlib.sha1`. -/
def sha1 (msg : List Nat) : List Nat :=
  match sha1Core msg with
  | (h0, h1, h2, h3, h4) =>
      wordBytes h0 ++ wordBytes h1 ++ wordBytes h2 ++ wordBytes h3 ++ wordBytes h4

/-- HMAC-SHA1 (RFC 2104, block size 64); models `hmac.new(key, msg,
hashlib.sha1).digest()`. -/
def hmacSha1 (key msg : List Nat) : List Nat :=
  let k0 := if key.length > 64 then sha1 key else key
  let kp := k0 ++ List.replicate (64 - k0.length) 0
  sha1 (kp.map (fun b => b ^^^ 92) ++ sha1 (kp.map (fun b => b ^^^ 54) ++ msg))

/-- The sixteen lowercase hexadecimal digit characters. -/
def hexDigits : List Char := "0123456789abcdef".toList

/-- Lowercase hex digit of a nibble. -/
def hexChar (n : Nat) : Char := hexDigits.getD (n % 16) '0'

/-- Two lowercase hex characters per byte, in order. -/
def bytesHexChars : List Nat → List Char
  | [] => []
  | b :: bs => hexChar (b / 16) :: hexChar b :: bytesHexChars bs

/-- Lowercase hex string of a byte list; models `.hexdigest()`. -/
def hexdigest (bs : List Nat) : String := String.mk (bytesHexChars bs)

/-- UTF-8 bytes of a string; models Python `str.encode()`. -/
def utf8 (s : String) : List Nat := s.toUTF8.toList.map (fun b => b.toNat)

/-- The Signer output: the `{"timestamp": ..., "hash": ...}` dict. -/
structure AuthPair where
  timestamp : String
  hash : String

/-- Embedding of `FreedcampMCP._generate_auth` (lines 81-93): the message
is the API key concatenated with the decimal timestamp, the hash is
HMAC-SHA1 keyed by the API secret, rendered as lowercase hex. -/
def _generate_auth (api_key api_secret : String) (now : Nat) : AuthPair :=
  { timestamp := toString now
    hash := hexdigest (hmacSha1 (utf8 api_secret) (utf8 (api_key ++ toString now))) }

/-- The signature string alone, for a fixed key/secret/timestamp triple. -/
def signatureOf (api_key api_secret : String) (now : Nat) : String :=
  (_generate_auth api_key api_secret now).hash

/-- Four lowercase hex characters of a 16-bit value, for JSON escapes. -/
def u16hex (n : Nat) : List Char :=
  [hexChar (n / 4096), hexChar (n / 256), hexChar (n / 16), hexChar n]

/-- Escape of one character as in `json.dumps` with its default
`ensure_ascii=True`: the two-character escapes for quote, backslash and
the usual control characters, and a `uXXXX` escape (surrogate pair above
the BMP) for every other character outside printable ASCII. -/
def jsonEscapeChar (c : Char) : List Char :=
  if c = '"' then ['\\', '"']
  else if c = '\\' then ['\\', '\\']
  else if c = '\n' then ['\\', 'n']
  else if c = '\t' then ['\\', 't']
  else if c = '\x0d' then ['\\', 'r']
  else if c = '\x08' then ['\\', 'b']
  else if c = '\x0c' then ['\\', 'f']
  else if c.toNat < 32 || 126 < c.toNat then
    if c.toNat < 65536 then '\\' :: 'u' :: u16hex c.toNat
    else
      ('\\' :: 'u' :: u16hex (55296 + (c.toNat - 65536) / 1024)) ++
      ('\\' :: 'u' :: u16hex (56320 + (c.toNat - 65536) % 1024))
  else [c]

/-- A JSON string literal for `s`, quoted and escaped. -/
def jsonQuote (s : String) : String :=
  String.mk ('"' :: s.toList.foldr (fun c acc => jsonEscapeChar c ++ acc) ['"'])

mutual

/-- Embedding of `json.dumps` with its default separators. -/
def jsonDumps : PyVal → String
  | .none => "null"
  | .bool true => "true"
  | .bool false => "false"
  | .int n => toString n
  | .str s => jsonQuote s
  | .list xs => "[" ++ String.intercalate ", " (jsonDumpsList xs) ++ "]"
  | .dict kvs => "\x7b" ++ String.intercalate ", " (jsonDumpsKvs kvs) ++ "\x7d"

/-- Serialization of the elements of a JSON array. -/
def jsonDumpsList : List PyVal → List String
  | [] => []
  | v :: vs => jsonDumps v :: jsonDumpsList vs

/-- Serialization of the members of a JSON object. -/
def jsonDumpsKvs : List (String × PyVal) → List String
  | [] => []
  | (k, v) :: kvs => (jsonQuote k ++ ": " ++ jsonDumps v) :: jsonDumpsKvs kvs

end

/-- Python `str()` of a value (the f-string conversion); strings pass
through, other values use their repr. -/
def pyStr : PyVal → String
  | .str s => s
  | .none => "None"
  | .bool true => "True"
  | .bool false => "False"
  | .int n => toString n
  | v => jsonDumps v

/-- Dict insertion `d[k] = v` on a string-to-string dict: an existing key
keeps its position and takes the new value, a new key is appended. -/
def dinsert (d : List (String × String)) (k v : String) : List (String × String) :=
  if (List.lookup k d).isSome then
    d.map (fun kv => if kv.1 = k then (k, v) else kv)
  else d ++ [(k, v)]

/-- Embedding of `params.update(auth_params)` in `_make_request` (lines
107-110): the Signer pair is written into the query-parameter dict. -/
def updateParams (params : List (String × String)) (auth : AuthPair) :
    List (String × String) :=
  dinsert (dinsert params "timestamp" auth.timestamp) "hash" auth.hash

/-- The body of an outbound request: none, or a form-encoded field list. -/
inductive ReqBody where
  | noBody
  | form (fields : List (String × String))

/-- A wire-level request as `_make_request` hands it to the HTTP client. -/
structure HttpRequest where
  method : String
  url : String
  queryParams : List (String × String)
  body : ReqBody

/-- The fixed upstream base path. -/
def BASE_URL : String := "https://freedcamp.com/api/v1"

/-- Embedding of the request-building part of `FreedcampMCP._make_request`
(lines 102-125): one Signer output is generated and merged into the query
parameters; a POST with a truthy body map sends the JSON-encoded map as
the single form field named "data"; a GET or DELETE, or a POST without
data, carries no body. -/
def buildRequest (api_key api_secret : String) (now : Nat) (method endpoint : String)
    (params : Option (List (String × String))) (data : Option PyDict) : HttpRequest :=
  let auth := _generate_auth api_key api_secret now
  let qp :=
    match params with
    | some p => updateParams p auth
    | Option.none => [("timestamp", auth.timestamp), ("hash", auth.hash)]
  let body :=
    if method = "POST" then
      match data with
      | some d => if truthy (.dict d) then ReqBody.form [("data", jsonDumps (.dict d))]
                  else ReqBody.noBody
      | Option.none => ReqBody.noBody
    else ReqBody.noBody
  { method := method, url := BASE_URL ++ "/" ++ endpoint, queryParams := qp, body := body }

/-- One raw HTTP response from the upstream service. -/
structure HttpResponse where
  status : Nat
  body : PyVal

/-- Embedding of the response handling of `_make_request` (lines
127-128): `response.raise_for_status()` raises on every non-2xx status,
then `response.json()` is returned unchanged.  The embedded
`status_code` of the JSON envelope is never inspected here. -/
def handle_response (r : HttpResponse) : Except PyErr PyVal :=
  if 200 ≤ r.status && r.status < 300 then .ok r.body
  else .error (.httpStatus r.status)

/-- A single dispatch against a queue of wire responses: exactly one
response is consumed whatever the outcome (`_make_request` performs no
retry; an empty queue models a transport failure). -/
def dispatch_once (responses : List HttpResponse) :
    Except PyErr PyVal × List HttpResponse :=
  match responses with
  | [] => (.error .connection, [])
  | r :: rest => (handle_response r, rest)

/-- Embedding of the result shaping of `FreedcampMCP.delete_task` (lines
918-926): a truthy "data" member means success, anything else the fixed
failure payload, which carries no upstream status or message. -/
def delete_task_result (response : PyDict) : PyDict :=
  if truthy (response.getN "data") then
    [("success", .bool true), ("message", .str "Task deleted successfully")]
  else
    [("success", .bool false), ("message", .str "Failed to delete task")]

/-- Truthiness of an optional string parameter (`if x:` on a
str-or-None): present and non-empty. -/
def optStrTruthy : Option String → Bool
  | some s => s ≠ ""
  | Option.none => false

/-- Conditional insertion of an optional string filter key. -/
def insertOptStr (p : List (String × String)) (k : String) (v : Option String) :
    List (String × String) :=
  match v with
  | some s => if s ≠ "" then dinsert p k s else p
  | Option.none => p

/-- Repeated `params["k[]"] = x` over a list filter: the same dict key is
assigned once per element, so the last element wins (`if lst:` on None or
an empty list skips the loop, which coincides with the empty fold). -/
def insertListFilter (p : List (String × String)) (k : String)
    (v : Option (List String)) : List (String × String) :=
  match v with
  | some l => l.foldl (fun p s => dinsert p k s) p
  | Option.none => p

/-- Embedding of the query-parameter construction of
`FreedcampMCP.get_all_tasks` (lines 621-663), in source order: limit and
offset first, then the status/assignee/creator list filters, the four
date-range keys, the archived flag, the always-written `lists_status`,
the single order key and the two include flags. -/
def get_all_tasks_params (limit offset : Int)
    (status_filter assigned_to_ids created_by_ids : Option (List String))
    (due_date_from due_date_to created_date_from created_date_to : Option String)
    (include_archived : Bool) (lists_status : String)
    (order_by : Option String) (order_direction : String)
    (include_custom_fields include_tags : Bool) : List (String × String) :=
  let p := [("limit", toString limit), ("offset", toString offset)]
  let p := insertListFilter p "status[]" status_filter
  let p := insertListFilter p "assigned_to_id[]" assigned_to_ids
  let p := insertListFilter p "created_by_id[]" created_by_ids
  let p := insertOptStr p "due_date[from]" due_date_from
  let p := insertOptStr p "due_date[to]" due_date_to
  let p := insertOptStr p "created_date[from]" created_date_from
  let p := insertOptStr p "created_date[to]" created_date_to
  let p := if include_archived then dinsert p "f_with_archived" "1" else p
  let p := dinsert p "lists_status" lists_status
  let p :=
    match order_by with
    | some ob => if ob ≠ "" then dinsert p ("order[" ++ ob ++ "]") order_direction else p
    | Option.none => p
  let p := if include_custom_fields then dinsert p "f_cf" "1" else p
  if include_tags then dinsert p "f_include_tags" "1" else p

/-- One conditional `data[k] = v` assignment.  All mutation-payload keys
in the source are distinct literals written to a fresh dict, so the dict
is exactly the concatenation of these singletons in source order. -/
def entryIf (cond : Bool) (k : String) (v : PyVal) : PyDict :=
  if cond then [(k, v)] else []

/-- Embedding of the payload construction of `FreedcampMCP.update_task`
(lines 876-903).  `title` and `task_group_id` are guarded by truthiness
(`if title:`), so an empty string is dropped; `description`,
`assigned_to_id`, `due_date`, `start_date`, `status` and
`parent_task_id` are guarded by `is not None`; `attached_file_ids` by
truthiness of the list; custom fields as in the source. -/
def update_task_data (title description task_group_id : Option String)
    (priority : Option Int) (assigned_to_id due_date start_date : Option String)
    (status : Option Int) (parent_task_id : Option String)
    (attached_file_ids : Option (List Int)) (custom_fields : Option (List PyDict))
    (cf_template_id : Option String) : PyDict :=
  entryIf (optStrTruthy title) "title" (.str (title.getD ""))
  ++ entryIf description.isSome "description" (.str (description.getD ""))
  ++ entryIf (optStrTruthy task_group_id) "task_group_id" (.str (task_group_id.getD ""))
  ++ entryIf priority.isSome "priority" (.str (toString (priority.getD 0)))
  ++ entryIf assigned_to_id.isSome "assigned_to_id" (.str (assigned_to_id.getD ""))
  ++ entryIf due_date.isSome "due_date" (.str (due_date.getD ""))
  ++ entryIf start_date.isSome "start_date" (.str (start_date.getD ""))
  ++ entryIf status.isSome "status" (.str (toString (status.getD 0)))
  ++ entryIf parent_task_id.isSome "h_parent_id" (.str (parent_task_id.getD ""))
  ++ entryIf (!(attached_file_ids.getD []).isEmpty) "attached_ids"
       (.list ((attached_file_ids.getD []).map .int))
  ++ (if custom_fields.isSome then
        entryIf cf_template_id.isSome "cf_tpl_id" (.str (cf_template_id.getD ""))
        ++ [("custom_fields", .list ((custom_fields.getD []).map .dict))]
      else [])

/-- The `changed_users` sub-dict of `update_project` (lines 496-502):
each of the three lists is added under its key only when truthy. -/
def changed_users_of (users_to_add users_to_update users_to_delete :
    Option (List PyDict)) : PyDict :=
  entryIf (!(users_to_add.getD []).isEmpty) "added"
    (.list ((users_to_add.getD []).map .dict))
  ++ entryIf (!(users_to_update.getD []).isEmpty) "updated"
    (.list ((users_to_update.getD []).map .dict))
  ++ entryIf (!(users_to_delete.getD []).isEmpty) "deleted"
    (.list ((users_to_delete.getD []).map .dict))

/-- Embedding of the payload construction of `FreedcampMCP.update_project`
(lines 477-505).  Outside the only-update-users mode, `name`, `color`,
`group_id` and `group_name` are guarded by truthiness (an empty string is
dropped), `description` and `active` by `is not None`; the `changed_users`
dict is attached only when non-empty. -/
def update_project_data (name description color group_id group_name : Option String)
    (active : Option Bool)
    (users_to_add users_to_update users_to_delete : Option (List PyDict))
    (only_update_users : Bool) : PyDict :=
  let base :=
    if !only_update_users then
      entryIf (optStrTruthy name) "project_name" (.str (name.getD ""))
      ++ entryIf description.isSome "project_description" (.str (description.getD ""))
      ++ entryIf (optStrTruthy color) "project_color" (.str (color.getD ""))
      ++ entryIf (optStrTruthy group_id) "group_id" (.str (group_id.getD ""))
      ++ entryIf (optStrTruthy group_name) "group_name" (.str (group_name.getD ""))
      ++ entryIf active.isSome "f_active" (.bool (active.getD false))
    else [("f_only_users_update", .bool true)]
  let cu := changed_users_of users_to_add users_to_update users_to_delete
  base ++ (if !cu.isEmpty then [("changed_users", .dict cu)] else [])

/-- Embedding of `result.get("meta", {}).get("total", len(tasks))` in the
summary branches of the task-list tools (lines 1472 and 1530). -/
def total_count_of (meta : PyDict) (numTasks : Nat) : PyVal :=
  meta.get "total" (.int numTasks)

/-- The `total_count > limit` guard of the pagination block appended to
the summary text (lines 1477 and 1535). -/
def shows_pagination_block (total limit : Int) : Bool := total > limit

/-- Presence of the `... for more` continuation hint: it is appended only
inside the pagination block, under the further `offset + limit <
total_count` test (lines 1479-1480 and 1537-1538). -/
def shows_more_hint (total limit offset : Int) : Bool :=
  shows_pagination_block total limit && offset + limit < total

/-- Embedding of the project-name enrichment of `get_project_tasks_tool`
(lines 1460-1467): the default placeholder is used when the secondary
`get_project_details` call raised (the bare `except: pass`) or when the
returned dict has no truthy "name". -/
def project_name_of (project_id : String) (secondary : Except PyErr PyDict) : String :=
  match secondary with
  | .error _ => "Project " ++ project_id
  | .ok d =>
      let v := d.getN "name"
      if truthy v then pyStr v else "Project " ++ project_id

/-- Embedding of the user-name enrichment of `get_user_tasks_tool` (lines
1518-1525), the analogous placeholder for `get_user_details`. -/
def user_name_of (user_id : String) (secondary : Except PyErr PyDict) : String :=
  match secondary with
  | .error _ => "User " ++ user_id
  | .ok d =>
      let v := d.getN "full_name"
      if truthy v then pyStr v else "User " ++ user_id

/-- The three inputs that the summary branch of `get_project_tasks_tool`
feeds to the text rendering (lines 1460-1474): the summary projections of
the primary task list, the total count, and the resolved project name.
Only the name depends on the secondary call. -/
def project_tasks_summary_inputs (tasks : List PyDict) (meta : PyDict)
    (project_id : String) (secondary : Except PyErr PyDict) :
    Except PyErr (List PyDict) × PyVal × String :=
  (tasks.mapM _format_task_summary,
   total_count_of meta tasks.length,
   project_name_of project_id secondary)

/-- The analogous inputs of the summary branch of `get_user_tasks_tool`
(lines 1518-1532). -/
def user_tasks_summary_inputs (tasks : List PyDict) (meta : PyDict)
    (user_id : String) (secondary : Except PyErr PyDict) :
    Except PyErr (List PyDict) × PyVal × String :=
  (tasks.mapM _format_task_summary,
   total_count_of meta tasks.length,
   user_name_of user_id secondary)

/-! Helper lemmas: `Except` bind reduction, dict-lookup facts, digest
shape, and field extraction from the formatters. -/

@[simp] theorem exceptBindError {ε α β : Type} (e : ε) (f : α → Except ε β) :
    (Except.error e >>= f : Except ε β) = Except.error e := rfl

@[simp] theorem exceptBindOk {ε α β : Type} (a : α) (f : α → Except ε β) :
    (Except.ok a >>= f : Except ε β) = f a := rfl

@[simp] theorem exceptPure {ε α : Type} (a : α) :
    (pure a : Except ε α) = Except.ok a := rfl

/-- The dict carried by a successful formatter result (empty on error);
used to state field lookups on formatter output. -/
def okDict (e : Except PyErr PyDict) : PyDict :=
  match e with
  | .ok d => d
  | .error _ => []

theorem lookup_entryIf_ne (k k' : String) (cond : Bool) (v : PyVal) (rest : PyDict)
    (h : k ≠ k') :
    List.lookup k (entryIf cond k' v ++ rest) = List.lookup k rest := by
  have hb : (k == k') = false := beq_eq_false_iff_ne.mpr h
  cases cond <;> simp [entryIf, List.lookup, hb]

theorem lookup_entryIf_eq (k : String) (cond : Bool) (v : PyVal) (rest : PyDict) :
    List.lookup k (entryIf cond k v ++ rest) =
      if cond then some v else List.lookup k rest := by
  cases cond <;> simp [entryIf, List.lookup]

theorem lookup_map_replace (d : List (String × String)) (k v : String)
    (h : (List.lookup k d).isSome) :
    List.lookup k (d.map (fun kv => if kv.1 = k then (k, v) else kv)) = some v := by
  induction d with
  | nil => simp at h
  | cons a tl ih =>
    simp only [List.map_cons]
    by_cases hak : a.1 = k
    · rw [if_pos hak]
      simp [List.lookup]
    · rw [if_neg hak]
      have hb : (k == a.1) = false :=
        beq_eq_false_iff_ne.mpr (fun he => hak he.symm)
      simp only [List.lookup, hb] at h ⊢
      exact ih h

theorem lookup_map_replace_ne (d : List (String × String)) (k k' v : String)
    (h : k' ≠ k) :
    List.lookup k' (d.map (fun kv => if kv.1 = k then (k, v) else kv)) =
      List.lookup k' d := by
  induction d with
  | nil => simp
  | cons a tl ih =>
    simp only [List.map_cons]
    by_cases hak : a.1 = k
    · have hb : (k' == k) = false := beq_eq_false_iff_ne.mpr h
      have hb2 : (k' == a.1) = false := by rw [hak]; exact hb
      rw [if_pos hak]
      simp only [List.lookup, hb, hb2]
      exact ih
    · rw [if_neg hak]
      cases hka : (k' == a.1) <;> simp only [List.lookup, hka] <;> simp [ih]

theorem lookup_append_last (d : List (String × String)) (k v : String)
    (h : List.lookup k d = Option.none) :
    List.lookup k (d ++ [(k, v)]) = some v := by
  induction d with
  | nil => simp [List.lookup]
  | cons a tl ih =>
    simp only [List.cons_append, List.lookup] at h ⊢
    cases hka : (k == a.1) <;> simp only [hka] at h ⊢
    · exact ih h
    · simp at h

theorem lookup_append_last_ne (d : List (String × String)) (k k' v : String)
    (h : k' ≠ k) :
    List.lookup k' (d ++ [(k, v)]) = List.lookup k' d := by
  induction d with
  | nil => simp [List.lookup, beq_eq_false_iff_ne.mpr h]
  | cons a tl ih =>
    simp only [List.cons_append, List.lookup]
    cases hka : (k' == a.1) <;> simp only [hka]
    exact ih

theorem keys_map_replace (d : List (String × String)) (k v : String) :
    (d.map (fun kv => if kv.1 = k then (k, v) else kv)).map Prod.fst =
      d.map Prod.fst := by
  induction d with
  | nil => simp
  | cons a tl ih =>
    simp only [List.map_cons]
    by_cases hak : a.1 = k
    · rw [if_pos hak]; simp [hak, ih]
    · rw [if_neg hak]; simp [ih]

theorem not_mem_keys_of_lookup_none (d : List (String × String)) (k : String)
    (h : List.lookup k d = Option.none) : k ∉ d.map Prod.fst := by
  induction d with
  | nil => simp
  | cons a tl ih =>
    simp only [List.lookup] at h
    cases hka : (k == a.1) <;> simp only [hka] at h
    · simp only [List.map_cons, List.mem_cons]
      rintro (hh | hh)
      · rw [hh] at hka; simp at hka
      · exact ih h hh
    · simp at h

theorem mem_keys_of_lookup_some (d : List (String × String)) (k v : String)
    (h : List.lookup k d = some v) : k ∈ d.map Prod.fst := by
  induction d with
  | nil => simp at h
  | cons a tl ih =>
    simp only [List.lookup] at h
    cases hka : (k == a.1) <;> simp only [hka] at h
    · exact List.mem_cons_of_mem _ (ih h)
    · exact List.mem_cons.mpr (Or.inl (by simpa using hka))

theorem lookup_dinsert (d : List (String × String)) (k v : String) :
    List.lookup k (dinsert d k v) = some v := by
  unfold dinsert
  split
  · exact lookup_map_replace d k v (by assumption)
  · rename_i hnone
    refine lookup_append_last d k v ?_
    cases hh : List.lookup k d
    · rfl
    · exact absurd (by simp [hh]) hnone

theorem lookup_dinsert_ne (d : List (String × String)) (k k' v : String) (h : k' ≠ k) :
    List.lookup k' (dinsert d k v) = List.lookup k' d := by
  unfold dinsert
  split
  · exact lookup_map_replace_ne d k k' v h
  · exact lookup_append_last_ne d k k' v h

theorem keys_dinsert_nodup (d : List (String × String)) (k v : String)
    (h : (d.map Prod.fst).Nodup) : ((dinsert d k v).map Prod.fst).Nodup := by
  unfold dinsert
  split
  · rw [keys_map_replace]; exact h
  · rename_i hnone
    have h0 : List.lookup k d = Option.none := by
      cases hh : List.lookup k d
      · rfl
      · exact absurd (by simp [hh]) hnone
    have hk : k ∉ d.map Prod.fst := not_mem_keys_of_lookup_none d k h0
    simpa using List.Nodup.concat hk h

theorem wordBytes_lt (w : Nat) : ∀ b ∈ wordBytes w, b < 256 := by
  intro b hb
  simp [wordBytes] at hb
  rcases hb with rfl | rfl | rfl | rfl <;> exact Nat.mod_lt _ (by norm_num)

theorem sha1_length (msg : List Nat) : (sha1 msg).length = 20 := by
  rcases hc : sha1Core msg with ⟨h0, h1, h2, h3, h4⟩
  simp [sha1, hc, wordBytes]

theorem sha1_bytes_lt (msg : List Nat) : ∀ b ∈ sha1 msg, b < 256 := by
  rcases hc : sha1Core msg with ⟨h0, h1, h2, h3, h4⟩
  intro b hb
  simp only [sha1, hc, List.mem_append] at hb
  rcases hb with (((h | h) | h) | h) | h <;> exact wordBytes_lt _ _ h

theorem hmacSha1_length (key msg : List Nat) : (hmacSha1 key msg).length = 20 := by
  simp only [hmacSha1]
  exact sha1_length _

theorem hmacSha1_bytes_lt (key msg : List Nat) : ∀ b ∈ hmacSha1 key msg, b < 256 := by
  simp only [hmacSha1]
  exact sha1_bytes_lt _

/-- The raw HMAC digest behind one Signer call. -/
def hmacDigestOf (api_key api_secret : String) (t : Nat) : List Nat :=
  hmacSha1 (utf8 api_secret) (utf8 (api_key ++ toString t))

theorem signatureOf_eq (k s : String) (t : Nat) :
    signatureOf k s t = hexdigest (hmacDigestOf k s t) := rfl

theorem hexDigits_length : hexDigits.length = 16 := rfl

theorem hexChar_mem_hexDigits (n : Nat) : hexChar n ∈ hexDigits := by
  unfold hexChar
  have h : n % 16 < hexDigits.length := by
    rw [hexDigits_length]; exact Nat.mod_lt _ (by norm_num)
  rw [List.getD_eq_getElem _ _ h]
  exact List.getElem_mem h

theorem bytesHexChars_length (bs : List Nat) :
    (bytesHexChars bs).length = 2 * bs.length := by
  induction bs with
  | nil => rfl
  | cons b tl ih => simp [bytesHexChars, ih]; omega

theorem bytesHexChars_mem (bs : List Nat) : ∀ c ∈ bytesHexChars bs, c ∈ hexDigits := by
  induction bs with
  | nil => simp [bytesHexChars]
  | cons b tl ih =>
    intro c hc
    simp only [bytesHexChars, List.mem_cons] at hc
    rcases hc with rfl | rfl | hc
    · exact hexChar_mem_hexDigits _
    · exact hexChar_mem_hexDigits _
    · exact ih _ hc

/-- Two distinct timestamps must eventually share an HMAC-SHA1 digest:
the digest space is finite (20 bytes) while the timestamp space is not. -/
theorem exists_signature_collision (k s : String) :
    ∃ t₁ t₂ : Nat, t₁ ≠ t₂ ∧ signatureOf k s t₁ = signatureOf k s t₂ := by
  have hlen : ∀ t, (hmacDigestOf k s t).length = 20 := fun t => hmacSha1_length _ _
  have hlt : ∀ t, ∀ b ∈ hmacDigestOf k s t, b < 256 := fun t => hmacSha1_bytes_lt _ _
  let f : Nat → (Fin 20 → Fin 256) := fun t i =>
    ⟨(hmacDigestOf k s t).getD i.val 0, by
      have hi : i.val < (hmacDigestOf k s t).length := by rw [hlen]; exact i.isLt
      rw [List.getD_eq_getElem _ _ hi]
      exact hlt t _ (List.getElem_mem hi)⟩
  obtain ⟨t₁, t₂, hne, hfe⟩ := Finite.exists_ne_map_eq_of_infinite f
  refine ⟨t₁, t₂, hne, ?_⟩
  have hd : hmacDigestOf k s t₁ = hmacDigestOf k s t₂ := by
    apply List.ext_getElem (by rw [hlen, hlen])
    intro n h1 h2
    have h20 : n < 20 := by rw [hlen t₁] at h1; exact h1
    have hfv := congrArg Fin.val (congrFun hfe ⟨n, h20⟩)
    simp only [f] at hfv
    rw [← List.getD_eq_getElem (hmacDigestOf k s t₁) 0 h1,
        ← List.getD_eq_getElem (hmacDigestOf k s t₂) 0 h2]
    exact hfv
  rw [signatureOf_eq, signatureOf_eq, hd]

/-- Field extraction from a successful detailed projection: the required
raw fields exist, and the formatted dict maps the shared keys to the
documented raw values (the conditional segments appended for custom
fields, tags, comments and files never shadow the base keys). -/
theorem format_task_fields (t : PyDict) (b : Bool)
    (h : ∃ r, _format_task t b = .ok r) :
    ∃ idv titlev dd,
      List.lookup "id" t = some idv ∧
      List.lookup "title" t = some titlev ∧
      _format_date (t.get "due_ts" (.int 0)) = .ok dd ∧
      List.lookup "id" (okDict (_format_task t b)) = some idv ∧
      List.lookup "title" (okDict (_format_task t b)) = some titlev ∧
      List.lookup "status" (okDict (_format_task t b)) = some (t.getN "status") ∧
      List.lookup "priority" (okDict (_format_task t b)) =
        some (t.get "priority" (.int 0)) ∧
      List.lookup "project_id" (okDict (_format_task t b)) =
        some (t.getN "project_id") ∧
      List.lookup "url" (okDict (_format_task t b)) = some (t.get "url" (.str "")) ∧
      List.lookup "can_edit" (okDict (_format_task t b)) =
        some (t.get "can_edit" (.bool false)) ∧
      List.lookup "due_date" (okDict (_format_task t b)) = some (.str dd) := by
  obtain ⟨res, hres⟩ := h
  have hsum := hres
  unfold _format_task at hsum
  rcases hid : List.lookup "id" t with _ | idv
  · simp [PyDict.req, hid] at hsum
  rcases htitle : List.lookup "title" t with _ | titlev
  · simp [PyDict.req, hid, htitle] at hsum
  rcases hca : _format_timestamp (t.get "created_ts" (.int 0)) with e | ca
  · simp [PyDict.req, hid, htitle, hca] at hsum
  rcases hdd : _format_date (t.get "due_ts" (.int 0)) with e | dd
  · simp [PyDict.req, hid, htitle, hca, hdd] at hsum
  rcases hsd : _format_date (t.get "start_ts" (.int 0)) with e | sd
  · simp [PyDict.req, hid, htitle, hca, hdd, hsd] at hsum
  refine ⟨idv, titlev, dd, rfl, rfl, rfl, ?_⟩
  rw [hres]
  simp only [okDict]
  by_cases hcomp : truthy (t.getN "completed_ts") = true
  · rcases hcts : _format_timestamp (t.get "completed_ts" (.int 0)) with e | cs
    · simp [PyDict.req, hid, htitle, hca, hdd, hsd, hcomp, hcts] at hsum
    by_cases hcm : truthy (t.getN "comments") = true
    · rcases hcv : formatCommentsVal (t.getN "comments") with e | cl
      · simp [PyDict.req, hid, htitle, hca, hdd, hsd, hcomp, hcts, hcm, hcv] at hsum
      simp only [PyDict.req, hid, htitle, hca, hdd, hsd, hcomp, hcts, hcm, hcv,
        exceptBindOk, exceptBindError, exceptPure, if_true, if_false,
        Except.ok.injEq] at hsum
      subst hsum
      by_cases hcf : (b && truthy (t.getN "custom_fields")) = true <;>
        by_cases htg : truthy (t.getN "tags") = true <;>
        by_cases hfl : truthy (t.getN "files") = true <;>
        simp [hcf, htg, hfl, List.lookup]
    · simp only [PyDict.req, hid, htitle, hca, hdd, hsd, hcomp, hcm, hcts,
        exceptBindOk, exceptBindError, exceptPure, if_true, if_false,
        Bool.false_eq_true, Except.ok.injEq] at hsum
      subst hsum
      by_cases hcf : (b && truthy (t.getN "custom_fields")) = true <;>
        by_cases htg : truthy (t.getN "tags") = true <;>
        by_cases hfl : truthy (t.getN "files") = true <;>
        simp [hcf, htg, hfl, List.lookup]
  · by_cases hcm : truthy (t.getN "comments") = true
    · rcases hcv : formatCommentsVal (t.getN "comments") with e | cl
      · simp [PyDict.req, hid, htitle, hca, hdd, hsd, hcomp, hcm, hcv] at hsum
      simp only [PyDict.req, hid, htitle, hca, hdd, hsd, hcomp, hcm, hcv,
        exceptBindOk, exceptBindError, exceptPure, if_true, if_false,
        Bool.false_eq_true, Except.ok.injEq] at hsum
      subst hsum
      by_cases hcf : (b && truthy (t.getN "custom_fields")) = true <;>
        by_cases htg : truthy (t.getN "tags") = true <;>
        by_cases hfl : truthy (t.getN "files") = true <;>
        simp [hcf, htg, hfl, List.lookup]
    · simp only [PyDict.req, hid, htitle, hca, hdd, hsd, hcomp, hcm,
        exceptBindOk, exceptBindError, exceptPure, if_true, if_false,
        Bool.false_eq_true, Except.ok.injEq] at hsum
      subst hsum
      by_cases hcf : (b && truthy (t.getN "custom_fields")) = true <;>
        by_cases htg : truthy (t.getN "tags") = true <;>
        by_cases hfl : truthy (t.getN "files") = true <;>
        simp [hcf, htg, hfl, List.lookup]

/-- Field extraction from a successful minimal projection: the formatted
dict is exactly the ten-field literal of the source. -/
theorem format_task_summary_fields (t : PyDict)
    (h : ∃ r, _format_task_summary t = .ok r) :
    ∃ idv titlev dd,
      List.lookup "id" t = some idv ∧
      List.lookup "title" t = some titlev ∧
      _format_date (t.get "due_ts" (.int 0)) = .ok dd ∧
      okDict (_format_task_summary t) =
        [("id", idv),
         ("title", titlev),
         ("status", t.get "status_title" (.str "Not Started")),
         ("priority", t.get "priority_title" (.str "None")),
         ("assigned_to", t.get "assigned_to_fullname" (.str "Unassigned")),
         ("due_date", .str (if dd = "" then "No due date" else dd)),
         ("project_id", t.getN "project_id"),
         ("url", t.get "url" (.str "")),
         ("comments", t.get "comments_count" (.int 0)),
         ("can_edit", t.get "can_edit" (.bool false))] := by
  obtain ⟨res, hres⟩ := h
  have hsum := hres
  unfold _format_task_summary at hsum
  rcases hid : List.lookup "id" t with _ | idv
  · simp [PyDict.req, hid] at hsum
  rcases htitle : List.lookup "title" t with _ | titlev
  · simp [PyDict.req, hid, htitle] at hsum
  rcases hdd : _format_date (t.get "due_ts" (.int 0)) with e | dd
  · simp [PyDict.req, hid, htitle, hdd] at hsum
  refine ⟨idv, titlev, dd, rfl, rfl, rfl, ?_⟩
  rw [hres]
  simp only [PyDict.req, hid, htitle, hdd, exceptBindOk, exceptPure,
    Except.ok.injEq] at hsum
  subst hsum
  simp [okDict]

/-- The "title" key of an update_task payload: present exactly when the
caller passed a truthy (non-empty) title, and then bound to that title. -/
theorem update_task_title_lookup (title description task_group_id : Option String)
    (priority : Option Int) (assigned_to_id due_date start_date : Option String)
    (status : Option Int) (parent_task_id : Option String)
    (attached_file_ids : Option (List Int)) (custom_fields : Option (List PyDict))
    (cf_template_id : Option String) :
    List.lookup "title" (update_task_data title description task_group_id priority
      assigned_to_id due_date start_date status parent_task_id attached_file_ids
      custom_fields cf_template_id) =
      if optStrTruthy title then some (.str (title.getD "")) else Option.none := by
  unfold update_task_data
  simp only [List.append_assoc]
  rw [lookup_entryIf_eq]
  by_cases ht : optStrTruthy title = true
  · simp [ht]
  · rw [if_neg ht, if_neg ht]
    rw [lookup_entryIf_ne _ _ _ _ _ (by decide),
        lookup_entryIf_ne _ _ _ _ _ (by decide),
        lookup_entryIf_ne _ _ _ _ _ (by decide),
        lookup_entryIf_ne _ _ _ _ _ (by decide),
        lookup_entryIf_ne _ _ _ _ _ (by decide),
        lookup_entryIf_ne _ _ _ _ _ (by decide),
        lookup_entryIf_ne _ _ _ _ _ (by decide),
        lookup_entryIf_ne _ _ _ _ _ (by decide),
        lookup_entryIf_ne _ _ _ _ _ (by decide)]
    rcases custom_fields with _ | l
    · simp
    · simp only [Option.isSome_some, ite_true]
      rw [lookup_entryIf_ne _ _ _ _ _ (by decide)]
      simp [List.lookup]

/-- The "description" key of an update_task payload: present exactly when
the caller passed a description at all, the empty string included. -/
theorem update_task_description_lookup (title description task_group_id : Option String)
    (priority : Option Int) (assigned_to_id due_date start_date : Option String)
    (status : Option Int) (parent_task_id : Option String)
    (attached_file_ids : Option (List Int)) (custom_fields : Option (List PyDict))
    (cf_template_id : Option String) :
    List.lookup "description" (update_task_data title description task_group_id priority
      assigned_to_id due_date start_date status parent_task_id attached_file_ids
      custom_fields cf_template_id) =
      if description.isSome then some (.str (description.getD "")) else Option.none := by
  unfold update_task_data
  simp only [List.append_assoc]
  rw [lookup_entryIf_ne _ _ _ _ _ (by decide), lookup_entryIf_eq]
  by_cases hd : description.isSome = true
  · simp [hd]
  · rw [if_neg hd, if_neg hd]
    rw [lookup_entryIf_ne _ _ _ _ _ (by decide),
        lookup_entryIf_ne _ _ _ _ _ (by decide),
        lookup_entryIf_ne _ _ _ _ _ (by decide),
        lookup_entryIf_ne _ _ _ _ _ (by decide),
        lookup_entryIf_ne _ _ _ _ _ (by decide),
        lookup_entryIf_ne _ _ _ _ _ (by decide),
        lookup_entryIf_ne _ _ _ _ _ (by decide),
        lookup_entryIf_ne _ _ _ _ _ (by decide)]
    rcases custom_fields with _ | l
    · simp
    · simp only [Option.isSome_some, ite_true]
      rw [lookup_entryIf_ne _ _ _ _ _ (by decide)]
      simp [List.lookup]

/-- The "project_name" key of an update_project payload (outside the
only-update-users mode): present exactly when the caller passed a truthy
(non-empty) name. -/
theorem update_project_name_lookup (name description color group_id group_name :
    Option String) (active : Option Bool)
    (users_to_add users_to_update users_to_delete : Option (List PyDict)) :
    List.lookup "project_name" (update_project_data name description color group_id
      group_name active users_to_add users_to_update users_to_delete false) =
      if optStrTruthy name then some (.str (name.getD "")) else Option.none := by
  unfold update_project_data
  rw [if_pos (by decide : (!false) = true)]
  simp only [List.append_assoc]
  rw [lookup_entryIf_eq]
  by_cases hn : optStrTruthy name = true
  · simp [hn]
  · rw [if_neg hn, if_neg hn]
    rw [lookup_entryIf_ne _ _ _ _ _ (by decide),
        lookup_entryIf_ne _ _ _ _ _ (by decide),
        lookup_entryIf_ne _ _ _ _ _ (by decide),
        lookup_entryIf_ne _ _ _ _ _ (by decide),
        lookup_entryIf_ne _ _ _ _ _ (by decide)]
    cases hq : (changed_users_of users_to_add users_to_update users_to_delete).isEmpty <;>
      simp [hq, List.lookup]

/-- The "project_description" key of an update_project payload: present
exactly when the caller passed a description, the empty string included. -/
theorem update_project_description_lookup (name description color group_id group_name :
    Option String) (active : Option Bool)
    (users_to_add users_to_update users_to_delete : Option (List PyDict)) :
    List.lookup "project_description" (update_project_data name description color group_id
      group_name active users_to_add users_to_update users_to_delete false) =
      if description.isSome then some (.str (description.getD "")) else Option.none := by
  unfold update_project_data
  rw [if_pos (by decide : (!false) = true)]
  simp only [List.append_assoc]
  rw [lookup_entryIf_ne _ _ _ _ _ (by decide), lookup_entryIf_eq]
  by_cases hd : description.isSome = true
  · simp [hd]
  · rw [if_neg hd, if_neg hd]
    rw [lookup_entryIf_ne _ _ _ _ _ (by decide),
        lookup_entryIf_ne _ _ _ _ _ (by decide),
        lookup_entryIf_ne _ _ _ _ _ (by decide),
        lookup_entryIf_ne _ _ _ _ _ (by decide)]
    cases hq : (changed_users_of users_to_add users_to_update users_to_delete).isEmpty <;>
      simp [hq, List.lookup]

/-! Claim theorems. -/

/-- Claim C1, counterexample: the claim says a due timestamp that is the
string "0" or negative is never rendered as an epoch date, but
`_format_date` parses the truthy string "0" with `int()` and renders
1970-01-01, renders a negative timestamp as a 1969 date, and
`_format_task` puts that 1970 date into the due_date field of a task
whose raw due_ts is the string "0". -/
theorem C1_counterexample :
    _format_date (.str "0") = .ok "1970-01-01" ∧
    _format_date (.int (-86400)) = .ok "1969-12-31" ∧
    ("1970-01-01" : String) ≠ "" ∧
    List.lookup "due_date"
      (okDict (_format_task [("id", PyVal.str "7"), ("title", PyVal.str "T"),
        ("due_ts", PyVal.str "0")] false)) = some (.str "1970-01-01") :=
  ⟨rfl, rfl, by decide, rfl⟩

/-- Claim C1, amended: for a raw task record whose due_ts field is the
integer 0 (also the default when the field is absent), the empty string,
or a malformed (unparsable) string, `_format_date` yields the empty
string and the due_date field of `_format_task` carries no date; the
string "0" and negative timestamps are excluded, since those render as
epoch-adjacent dates (see the counterexample). -/
theorem C1_due_date_normalization (t : PyDict) (s : String)
    (hmal : pyIntOfString s = Option.none)
    (hok : ∃ r, _format_task t false = .ok r)
    (hbad : t.get "due_ts" (.int 0) = .int 0 ∨ t.get "due_ts" (.int 0) = .str "" ∨
            t.get "due_ts" (.int 0) = .str s) :
    _format_date (.int 0) = .ok "" ∧
    _format_date (.str "") = .ok "" ∧
    _format_date (.str s) = .ok "" ∧
    List.lookup "due_date" (okDict (_format_task t false)) = some (.str "") := by
  have hzero : _format_date (.int 0) = .ok "" := by
    simp [_format_date, truthy]
  have hempty : _format_date (.str "") = .ok "" := by
    simp [_format_date, truthy]
  have hmalf : _format_date (.str s) = .ok "" := by
    by_cases hs0 : s = ""
    · simp [hs0, hempty]
    · simp [_format_date, truthy, hs0, pyTimestampOf, hmal]
  refine ⟨hzero, hempty, hmalf, ?_⟩
  obtain ⟨i2, s2, d2, hid2, htl2, hdd2, _, _, _, _, _, _, _, hdue⟩ :=
    format_task_fields t false hok
  have hdd0 : _format_date (t.get "due_ts" (.int 0)) = .ok "" := by
    rcases hbad with hb | hb | hb <;> rw [hb] <;> assumption
  rw [hdd0] at hdd2
  obtain rfl : "" = d2 := Except.ok.inj hdd2
  exact hdue

/-- Claim C1, witness: the amended theorem applied to a record without a
due_ts field and the malformed string "oops". -/
theorem C1_due_date_normalization_witness :
    _format_date (.int 0) = .ok "" ∧
    _format_date (.str "") = .ok "" ∧
    _format_date (.str "oops") = .ok "" ∧
    List.lookup "due_date"
      (okDict (_format_task [("id", PyVal.str "1"), ("title", PyVal.str "W")] false)) =
      some (.str "") :=
  C1_due_date_normalization [("id", PyVal.str "1"), ("title", PyVal.str "W")] "oops"
    rfl ⟨_, rfl⟩ (Or.inl rfl)

/-- Claim C2, counterexample: on a concrete raw task both projections
succeed, yet the summary keys assigned_to and comments do not exist in
the detailed projection (so the summary key set is not a subset), and the
shared key status carries the title string in the summary but the raw
numeric status in the detailed view. -/
theorem C2_counterexample :
    (∃ r, _format_task_summary [("id", PyVal.str "1"), ("title", PyVal.str "T"),
      ("status", PyVal.int 2), ("status_title", PyVal.str "In Progress")] = .ok r) ∧
    (∃ r, _format_task [("id", PyVal.str "1"), ("title", PyVal.str "T"),
      ("status", PyVal.int 2), ("status_title", PyVal.str "In Progress")] true = .ok r) ∧
    List.lookup "assigned_to"
      (okDict (_format_task_summary [("id", PyVal.str "1"), ("title", PyVal.str "T"),
        ("status", PyVal.int 2), ("status_title", PyVal.str "In Progress")])) =
      some (.str "Unassigned") ∧
    List.lookup "assigned_to"
      (okDict (_format_task [("id", PyVal.str "1"), ("title", PyVal.str "T"),
        ("status", PyVal.int 2), ("status_title", PyVal.str "In Progress")] true)) =
      Option.none ∧
    List.lookup "comments"
      (okDict (_format_task_summary [("id", PyVal.str "1"), ("title", PyVal.str "T"),
        ("status", PyVal.int 2), ("status_title", PyVal.str "In Progress")])) =
      some (.int 0) ∧
    List.lookup "comments"
      (okDict (_format_task [("id", PyVal.str "1"), ("title", PyVal.str "T"),
        ("status", PyVal.int 2), ("status_title", PyVal.str "In Progress")] true)) =
      Option.none ∧
    List.lookup "status"
      (okDict (_format_task_summary [("id", PyVal.str "1"), ("title", PyVal.str "T"),
        ("status", PyVal.int 2), ("status_title", PyVal.str "In Progress")])) =
      some (.str "In Progress") ∧
    List.lookup "status"
      (okDict (_format_task [("id", PyVal.str "1"), ("title", PyVal.str "T"),
        ("status", PyVal.int 2), ("status_title", PyVal.str "In Progress")] true)) =
      some (.int 2) ∧
    PyVal.str "In Progress" ≠ PyVal.int 2 :=
  ⟨⟨_, rfl⟩, ⟨_, rfl⟩, rfl, rfl, rfl, rfl, rfl, rfl, by simp⟩

/-- Claim C2, amended: when both projections of the same raw record
succeed, the keys that genuinely appear in both under the same name and
semantics, namely id, title, project_id, url and can_edit, carry equal
values; status and priority are re-derivations (title string against raw
code), due_date differs through the summary fallback, and assigned_to
and comments exist only in the summary under those names. -/
theorem C2_shared_fields (t : PyDict) (b : Bool)
    (hs : ∃ r, _format_task_summary t = .ok r)
    (hd : ∃ r, _format_task t b = .ok r) :
    List.lookup "id" (okDict (_format_task_summary t)) =
      List.lookup "id" (okDict (_format_task t b)) ∧
    List.lookup "title" (okDict (_format_task_summary t)) =
      List.lookup "title" (okDict (_format_task t b)) ∧
    List.lookup "project_id" (okDict (_format_task_summary t)) =
      List.lookup "project_id" (okDict (_format_task t b)) ∧
    List.lookup "url" (okDict (_format_task_summary t)) =
      List.lookup "url" (okDict (_format_task t b)) ∧
    List.lookup "can_edit" (okDict (_format_task_summary t)) =
      List.lookup "can_edit" (okDict (_format_task t b)) := by
  obtain ⟨i1, s1, d1, hid1, htl1, hdd1, hS⟩ := format_task_summary_fields t hs
  obtain ⟨i2, s2, d2, hid2, htl2, hdd2, h4, h5, _, _, h6, h8, h9, _⟩ :=
    format_task_fields t b hd
  rw [hid1] at hid2
  rw [htl1] at htl2
  obtain rfl : i1 = i2 := Option.some.inj hid2
  obtain rfl : s1 = s2 := Option.some.inj htl2
  rw [hS, h4, h5, h6, h8, h9]
  simp [List.lookup]

/-- Claim C2, witness: the amended theorem applied to the concrete record
of the counterexample. -/
theorem C2_shared_fields_witness :
    List.lookup "id" (okDict (_format_task_summary [("id", PyVal.str "1"),
      ("title", PyVal.str "T"), ("status", PyVal.int 2),
      ("status_title", PyVal.str "In Progress")])) =
    List.lookup "id" (okDict (_format_task [("id", PyVal.str "1"),
      ("title", PyVal.str "T"), ("status", PyVal.int 2),
      ("status_title", PyVal.str "In Progress")] true)) ∧
    List.lookup "title" (okDict (_format_task_summary [("id", PyVal.str "1"),
      ("title", PyVal.str "T"), ("status", PyVal.int 2),
      ("status_title", PyVal.str "In Progress")])) =
    List.lookup "title" (okDict (_format_task [("id", PyVal.str "1"),
      ("title", PyVal.str "T"), ("status", PyVal.int 2),
      ("status_title", PyVal.str "In Progress")] true)) ∧
    List.lookup "project_id" (okDict (_format_task_summary [("id", PyVal.str "1"),
      ("title", PyVal.str "T"), ("status", PyVal.int 2),
      ("status_title", PyVal.str "In Progress")])) =
    List.lookup "project_id" (okDict (_format_task [("id", PyVal.str "1"),
      ("title", PyVal.str "T"), ("status", PyVal.int 2),
      ("status_title", PyVal.str "In Progress")] true)) ∧
    List.lookup "url" (okDict (_format_task_summary [("id", PyVal.str "1"),
      ("title", PyVal.str "T"), ("status", PyVal.int 2),
      ("status_title", PyVal.str "In Progress")])) =
    List.lookup "url" (okDict (_format_task [("id", PyVal.str "1"),
      ("title", PyVal.str "T"), ("status", PyVal.int 2),
      ("status_title", PyVal.str "In Progress")] true)) ∧
    List.lookup "can_edit" (okDict (_format_task_summary [("id", PyVal.str "1"),
      ("title", PyVal.str "T"), ("status", PyVal.int 2),
      ("status_title", PyVal.str "In Progress")])) =
    List.lookup "can_edit" (okDict (_format_task [("id", PyVal.str "1"),
      ("title", PyVal.str "T"), ("status", PyVal.int 2),
      ("status_title", PyVal.str "In Progress")] true)) :=
  C2_shared_fields [("id", PyVal.str "1"), ("title", PyVal.str "T"),
    ("status", PyVal.int 2), ("status_title", PyVal.str "In Progress")] true
    ⟨_, rfl⟩ ⟨_, rfl⟩

/-- Claim C3, counterexample: a 2xx response whose JSON envelope carries
the embedded failure status 500 and the message "boom" is returned by
the dispatcher as a success, with the envelope uninspected; the caller
(here delete_task) then reports only its fixed generic failure payload,
which carries neither the originating status nor the message. -/
theorem C3_counterexample :
    handle_response ⟨200, .dict [("status_code", .int 500), ("msg", .str "boom")]⟩ =
      .ok (.dict [("status_code", .int 500), ("msg", .str "boom")]) ∧
    delete_task_result [("status_code", .int 500), ("msg", .str "boom")] =
      [("success", .bool false), ("message", .str "Failed to delete task")] :=
  ⟨rfl, rfl⟩

/-- Claim C3, amended: the dispatcher consumes exactly one wire response
per call and performs no retry in any case; a non-2xx HTTP status is
raised as a failure carrying the raw status; a 2xx response is returned
unchanged, so an embedded failure status code inside the JSON envelope
is never turned into the uniform failure condition by the dispatcher. -/
theorem C3_dispatch_behavior (r : HttpResponse) (rest : List HttpResponse) :
    (dispatch_once (r :: rest)).2 = rest ∧
    (¬(200 ≤ r.status ∧ r.status < 300) →
      (dispatch_once (r :: rest)).1 = .error (.httpStatus r.status)) ∧
    ((200 ≤ r.status ∧ r.status < 300) →
      (dispatch_once (r :: rest)).1 = .ok r.body) := by
  refine ⟨rfl, ?_, ?_⟩
  · intro h
    simp only [dispatch_once, handle_response]
    rw [if_neg]
    simp only [Bool.and_eq_true, decide_eq_true_eq]
    omega
  · intro h
    have hb : (200 ≤ r.status && r.status < 300) = true := by
      simp [h.1, h.2]
    simp [dispatch_once, handle_response, hb]

/-- Claim C3, witness: the amended theorem at a 404 response and at a 200
response, with both implications discharged. -/
theorem C3_dispatch_behavior_witness :
    (dispatch_once [⟨404, PyVal.none⟩]).2 = [] ∧
    (dispatch_once [⟨404, PyVal.none⟩]).1 = .error (.httpStatus 404) ∧
    (dispatch_once [⟨200, PyVal.none⟩]).1 = .ok PyVal.none :=
  ⟨(C3_dispatch_behavior ⟨404, PyVal.none⟩ []).1,
   (C3_dispatch_behavior ⟨404, PyVal.none⟩ []).2.1 (by decide),
   (C3_dispatch_behavior ⟨200, PyVal.none⟩ []).2.2 (by decide)⟩

/-- Claim C4: the continuation hint of the task-list tools is shown
exactly when offset + limit < total (the outer total > limit guard is
implied for non-negative offsets); with the upstream meta total absent
the total falls back to the returned record count, and then no hint is
shown whenever the page respects the requested limit. -/
theorem C4_pagination (limit offset total : Int) (numTasks : Nat) (pv : PyVal)
    (meta : PyDict) (hoff : 0 ≤ offset) :
    (shows_more_hint total limit offset = decide (offset + limit < total)) ∧
    total_count_of [] numTasks = .int numTasks ∧
    total_count_of (("total", pv) :: meta) numTasks = pv ∧
    ((numTasks : Int) ≤ limit → shows_more_hint (numTasks : Int) limit offset = false) := by
  refine ⟨?_, ?_, ?_, ?_⟩
  · by_cases h1 : offset + limit < total <;> by_cases h2 : total > limit <;>
      simp [shows_more_hint, shows_pagination_block, h1, h2] <;> omega
  · simp [total_count_of, PyDict.get, List.lookup]
  · simp [total_count_of, PyDict.get, List.lookup]
  · intro h
    simp only [shows_more_hint, shows_pagination_block, Bool.and_eq_false_iff,
      decide_eq_false_iff_not, not_lt]
    omega

/-- Claim C4, witness: the pagination law at limit 10, offset 0, total 5,
three returned records and a declared meta total of 7, with the inner
implication discharged. -/
theorem C4_pagination_witness :
    (shows_more_hint 5 10 0 = decide ((0 : Int) + 10 < 5)) ∧
    total_count_of [] 3 = .int 3 ∧
    total_count_of [("total", PyVal.int 7)] 3 = .int 7 ∧
    shows_more_hint ((3 : Nat) : Int) 10 0 = false :=
  ⟨(C4_pagination 10 0 5 3 (.int 7) [] (by decide)).1,
   (C4_pagination 10 0 5 3 (.int 7) [] (by decide)).2.1,
   (C4_pagination 10 0 5 3 (.int 7) [] (by decide)).2.2.1,
   (C4_pagination 10 0 5 3 (.int 7) [] (by decide)).2.2.2 (by decide)⟩

/-- Claim C5, counterexample: the signature cannot change for every input
change; two distinct timestamps with equal HMAC-SHA1 hex digests must
exist for any fixed key and secret, because the digest space is finite
while the timestamp space is not. -/
theorem C5_counterexample :
    ∃ t₁ t₂ : Nat, t₁ ≠ t₂ ∧
      signatureOf "freedcamp-key" "freedcamp-secret" t₁ =
        signatureOf "freedcamp-key" "freedcamp-secret" t₂ :=
  exists_signature_collision "freedcamp-key" "freedcamp-secret"

/-- Claim C5, amended: the Signer output is exactly the decimal timestamp
together with HMAC-SHA1 of the key concatenated with the timestamp,
keyed by the secret and rendered as 40 lowercase hexadecimal characters;
the signature is a pure function of the key/secret/timestamp triple, but
distinct triples are not guaranteed distinct digests (see the
counterexample). -/
theorem C5_signer (k s : String) (t : Nat) :
    _generate_auth k s t =
      { timestamp := toString t,
        hash := hexdigest (hmacSha1 (utf8 s) (utf8 (k ++ toString t))) } ∧
    (signatureOf k s t).length = 40 ∧
    ∀ c ∈ (signatureOf k s t).data, c ∈ hexDigits := by
  refine ⟨rfl, ?_, ?_⟩
  · show (bytesHexChars (hmacDigestOf k s t)).length = 40
    have h20 : (hmacDigestOf k s t).length = 20 := hmacSha1_length _ _
    rw [bytesHexChars_length, h20]
  · intro c hc
    exact bytesHexChars_mem _ c hc

/-- Claim C6: a POST with a non-empty body map sends the JSON-encoded map
as the single form field named data, never as a plain JSON body, and
every dispatched request (any method) carries in the query string exactly
one timestamp key and one hash key, both from the one Signer output
generated for this call. -/
theorem C6_mutation_encoding (k s : String) (now : Nat) (method endpoint : String)
    (params : List (String × String)) (data : PyDict)
    (hnodup : (params.map Prod.fst).Nodup) (hdata : data ≠ []) :
    (buildRequest k s now "POST" endpoint (some params) (some data)).body =
      ReqBody.form [("data", jsonDumps (.dict data))] ∧
    List.lookup "timestamp"
      (buildRequest k s now method endpoint (some params) (some data)).queryParams =
      some (toString now) ∧
    List.lookup "hash"
      (buildRequest k s now method endpoint (some params) (some data)).queryParams =
      some ((_generate_auth k s now).hash) ∧
    (((buildRequest k s now method endpoint (some params) (some data)).queryParams.map
        Prod.fst).count "timestamp") = 1 ∧
    (((buildRequest k s now method endpoint (some params) (some data)).queryParams.map
        Prod.fst).count "hash") = 1 := by
  have hqp : (buildRequest k s now method endpoint (some params) (some data)).queryParams
      = dinsert (dinsert params "timestamp" (toString now)) "hash"
          (_generate_auth k s now).hash := rfl
  have hlook1 : List.lookup "timestamp"
      (buildRequest k s now method endpoint (some params) (some data)).queryParams =
      some (toString now) := by
    rw [hqp, lookup_dinsert_ne _ _ _ _ (by decide), lookup_dinsert]
  have hlook2 : List.lookup "hash"
      (buildRequest k s now method endpoint (some params) (some data)).queryParams =
      some ((_generate_auth k s now).hash) := by
    rw [hqp, lookup_dinsert]
  have hnd : (((buildRequest k s now method endpoint (some params)
      (some data)).queryParams).map Prod.fst).Nodup := by
    rw [hqp]
    exact keys_dinsert_nodup _ _ _ (keys_dinsert_nodup _ _ _ hnodup)
  refine ⟨?_, hlook1, hlook2, ?_, ?_⟩
  · rcases data with _ | ⟨a, tl⟩
    · exact absurd rfl hdata
    · simp [buildRequest, truthy]
  · exact List.count_eq_one_of_mem hnd (mem_keys_of_lookup_some _ _ _ hlook1)
  · exact List.count_eq_one_of_mem hnd (mem_keys_of_lookup_some _ _ _ hlook2)

/-- Claim C6, witness: the encoding law at a concrete GET and POST with
one caller parameter and a one-field body. -/
theorem C6_mutation_encoding_witness :
    (buildRequest "k" "s" 1 "POST" "tasks" (some [("x", "1")])
      (some [("title", PyVal.str "T")])).body =
      ReqBody.form [("data", jsonDumps (.dict [("title", PyVal.str "T")]))] ∧
    List.lookup "timestamp"
      (buildRequest "k" "s" 1 "GET" "tasks" (some [("x", "1")])
        (some [("title", PyVal.str "T")])).queryParams = some (toString 1) ∧
    List.lookup "hash"
      (buildRequest "k" "s" 1 "GET" "tasks" (some [("x", "1")])
        (some [("title", PyVal.str "T")])).queryParams =
      some ((_generate_auth "k" "s" 1).hash) ∧
    (((buildRequest "k" "s" 1 "GET" "tasks" (some [("x", "1")])
        (some [("title", PyVal.str "T")])).queryParams.map Prod.fst).count "timestamp") = 1 ∧
    (((buildRequest "k" "s" 1 "GET" "tasks" (some [("x", "1")])
        (some [("title", PyVal.str "T")])).queryParams.map Prod.fst).count "hash") = 1 :=
  C6_mutation_encoding "k" "s" 1 "GET" "tasks" [("x", "1")] [("title", PyVal.str "T")]
    (by simp) (by simp)

/-- Claim C7: a task-list query built from an empty filter set is exactly
the three mandatory keys, so in particular it still contains limit,
offset and the lists_status default "active". -/
theorem C7_empty_filter_defaults (limit offset : Int) :
    get_all_tasks_params limit offset Option.none Option.none Option.none Option.none
      Option.none Option.none Option.none false "active" Option.none "asc" false false =
      [("limit", toString limit), ("offset", toString offset),
       ("lists_status", "active")] ∧
    List.lookup "limit"
      (get_all_tasks_params limit offset Option.none Option.none Option.none Option.none
        Option.none Option.none Option.none false "active" Option.none "asc" false false) =
      some (toString limit) ∧
    List.lookup "offset"
      (get_all_tasks_params limit offset Option.none Option.none Option.none Option.none
        Option.none Option.none Option.none false "active" Option.none "asc" false false) =
      some (toString offset) ∧
    List.lookup "lists_status"
      (get_all_tasks_params limit offset Option.none Option.none Option.none Option.none
        Option.none Option.none Option.none false "active" Option.none "asc" false false) =
      some "active" := by
  have he : get_all_tasks_params limit offset Option.none Option.none Option.none
      Option.none Option.none Option.none Option.none false "active" Option.none "asc"
      false false =
      [("limit", toString limit), ("offset", toString offset),
       ("lists_status", "active")] := by
    simp [get_all_tasks_params, insertListFilter, insertOptStr, dinsert, List.lookup]
  refine ⟨he, ?_, ?_, ?_⟩ <;> rw [he] <;> simp [List.lookup]

/-- Claim C8: a raw task record without an id makes both task projections
fail with the KeyError for id instead of defaulting the identity, and a
raw project record without an id makes the project normalization of
get_all_projects fail the same way. -/
theorem C8_missing_id_fails (task project : PyDict) (b : Bool)
    (htask : List.lookup "id" task = Option.none)
    (hproj : List.lookup "id" project = Option.none) :
    _format_task task b = .error (.keyError "id") ∧
    _format_task_summary task = .error (.keyError "id") ∧
    simplified_project project = .error (.keyError "id") := by
  refine ⟨?_, ?_, ?_⟩
  · simp [_format_task, PyDict.req, htask]
  · simp [_format_task_summary, PyDict.req, htask]
  · simp [simplified_project, PyDict.req, hproj]

/-- Claim C8, witness: records that carry other fields but no id. -/
theorem C8_missing_id_fails_witness :
    _format_task [("title", PyVal.str "x")] false = .error (.keyError "id") ∧
    _format_task_summary [("title", PyVal.str "x")] = .error (.keyError "id") ∧
    simplified_project [("project_name", PyVal.str "P")] = .error (.keyError "id") :=
  C8_missing_id_fails [("title", PyVal.str "x")] [("project_name", PyVal.str "P")]
    false rfl rfl

/-- Claim C9: a failing secondary enrichment call changes nothing in the
summary inputs beyond the display name, which degrades to the
placeholder built from the id; the failure itself is swallowed, so the
inputs coincide with those of a successful call that returned no name,
for the project tool and the user tool alike. -/
theorem C9_secondary_failure_degrades (tasks : List PyDict) (meta : PyDict)
    (pid uid : String) (e e2 : PyErr) :
    project_tasks_summary_inputs tasks meta pid (.error e) =
      project_tasks_summary_inputs tasks meta pid (.ok []) ∧
    project_name_of pid (.error e) = "Project " ++ pid ∧
    user_tasks_summary_inputs tasks meta uid (.error e2) =
      user_tasks_summary_inputs tasks meta uid (.ok []) ∧
    user_name_of uid (.error e2) = "User " ++ uid := by
  refine ⟨?_, rfl, ?_, rfl⟩
  · simp [project_tasks_summary_inputs, project_name_of, PyDict.getN, PyDict.get, truthy]
  · simp [user_tasks_summary_inputs, user_name_of, PyDict.getN, PyDict.get, truthy]

/-- Claim C10: update_task with an empty-string title omits the title key
entirely (the truthiness guard), while an empty-string description is
kept with its empty value (the is-not-None guard); the same asymmetry
holds for update_project with project_name against project_description;
in general the title and project_name keys appear exactly when the
caller passed a non-empty string, bound to that string, so neither can
ever be cleared to empty through this interface. -/
theorem C10_empty_title_vs_description
    (ti description task_group_id : Option String) (priority : Option Int)
    (assigned_to_id due_date start_date : Option String) (status : Option Int)
    (parent_task_id : Option String) (attached : Option (List Int))
    (cf : Option (List PyDict)) (cft : Option String)
    (pname pdesc pcolor pgid pgname : Option String) (pactive : Option Bool)
    (ua uu ud : Option (List PyDict)) :
    List.lookup "title" (update_task_data (some "") description task_group_id priority
      assigned_to_id due_date start_date status parent_task_id attached cf cft) =
      Option.none ∧
    List.lookup "description" (update_task_data ti (some "") task_group_id priority
      assigned_to_id due_date start_date status parent_task_id attached cf cft) =
      some (.str "") ∧
    List.lookup "title" (update_task_data ti description task_group_id priority
      assigned_to_id due_date start_date status parent_task_id attached cf cft) =
      (if optStrTruthy ti then some (.str (ti.getD "")) else Option.none) ∧
    List.lookup "project_name" (update_project_data (some "") pdesc pcolor pgid pgname
      pactive ua uu ud false) = Option.none ∧
    List.lookup "project_description" (update_project_data pname (some "") pcolor pgid
      pgname pactive ua uu ud false) = some (.str "") ∧
    List.lookup "project_name" (update_project_data pname pdesc pcolor pgid pgname
      pactive ua uu ud false) =
      (if optStrTruthy pname then some (.str (pname.getD "")) else Option.none) := by
  refine ⟨?_, ?_, update_task_title_lookup _ _ _ _ _ _ _ _ _ _ _ _, ?_, ?_,
    update_project_name_lookup _ _ _ _ _ _ _ _ _⟩
  · rw [update_task_title_lookup]
    simp [optStrTruthy]
  · rw [update_task_description_lookup]
    simp
  · rw [update_project_name_lookup]
    simp [optStrTruthy]
  · rw [update_project_description_lookup]
    simp
